import Mathlib

/-!
Verification development for the ttforwarder repository (`bot.py`,
`healthcheck.py`).  The Python program is shallowly embedded: every
definition below translates a concrete piece of the source.  Clock
readings, intervals and percentage deltas are Python floats; they are
modelled by an arbitrary linear ordered ring `α` (so the theorems hold
for real-valued time), machine sets by duplicate-free lists, and the
effectful loops by pure step functions over explicit state, driven by an
abstract event telling what the transport did during that iteration.
-/

/-- Translation of `FAIL_THRESHOLD = 3` (bot.py line 71): number of
consecutive REST failures of a trigger loop after which the process
hard-exits. -/
def FAIL_THRESHOLD : Nat := 3

/-- Outcome of one remote attempt made inside `safe_command_call`
(bot.py lines 149-158): the command call returns a value, raises a
transport-classified error (one of the `NET_ERR` classes), or raises a
non-transport error.  Values and errors are abstracted as naturals. -/
inductive Attempt where
  | ok (v : Nat)
  | transportErr (e : Nat)
  | otherErr (e : Nat)
deriving DecidableEq, Repr

/-- Result of `safe_command_call` (bot.py lines 116-162): a returned
value, a re-raised transport error after exhausting retries, an
immediately propagated non-transport error, the degenerate
`raise None` that `max_retries = 0` would produce, or the `None`
returned when the per-command cooldown discards the call. -/
inductive CallResult where
  | returned (v : Nat)
  | raisedTransport (e : Nat)
  | raisedOther (e : Nat)
  | raisedNone
  | discarded
deriving DecidableEq, Repr

/-- Default `max_retries=3` of `safe_command_call` (bot.py line 116). -/
def default_max_retries : Nat := 3

/-- Retry loop of `safe_command_call` (bot.py lines 146-162).  `att j`
is the outcome the transport would give the `j`-th attempt (0-based);
`i` is the current value of the Python `retries` variable, `last` the
`last_error` variable, and the final argument the remaining number of
loop iterations (`max_retries - retries`).  A transport error bumps
`retries` and sleeps `min(2 ** retries, 60)` seconds; a non-transport
error is not caught; when the loop ends the last transport error is
re-raised.  Returns the result and the list of backoff sleeps. -/
def retryLoop (att : Nat → Attempt) (i : Nat) (last : Option Nat) :
    Nat → CallResult × List Nat
  | 0 =>
    (match last with
     | some e => .raisedTransport e
     | none => .raisedNone, [])
  | fuel + 1 =>
    match att i with
    | .ok v => (.returned v, [])
    | .otherErr e => (.raisedOther e, [])
    | .transportErr e =>
      let r := retryLoop att (i + 1) (some e) fuel
      (r.1, min (2 ^ (i + 1)) 60 :: r.2)

/-- Python `str.lower()` restricted to ASCII, which covers every string
the bot compares (command names, control texts). -/
def pyLower (s : String) : String := ⟨s.data.map Char.toLower⟩

/-- Python `str.strip()`: drop leading and trailing whitespace. -/
def pyStrip (s : String) : String :=
  ⟨((s.data.dropWhile Char.isWhitespace).reverse.dropWhile
      Char.isWhitespace).reverse⟩

/-- Process-wide cooldown state of `safe_command_call` (bot.py lines
119-122): the function attributes `last_tt_call` and `last_burp_call`,
shared by every identity, both initially `0`. -/
structure CommandCallState (α : Type) where
  last_tt_call : α
  last_burp_call : α
deriving DecidableEq, Repr

/-- Aggregate outcome of one `safe_command_call` invocation: the result,
the backoff sleeps performed, and the updated shared cooldown state. -/
structure CommandCallOut (α : Type) where
  result : CallResult
  sleeps : List Nat
  state : CommandCallState α
deriving DecidableEq, Repr

/-- Translation of `safe_command_call` (bot.py lines 116-162).  The
command name is lowercased; a `tt` call within 180 seconds of the last
`tt` call (resp. `burp` within 600 seconds) returns `None` without
touching the transport; otherwise the shared timestamp is updated to
`now` before the retry loop runs. -/
def safe_command_call {α : Type} [LinearOrderedRing α]
    (cmdName : String) (now : α) (s : CommandCallState α)
    (max_retries : Nat) (att : Nat → Attempt) : CommandCallOut α :=
  let n := pyLower cmdName
  if n = "tt" then
    if now - s.last_tt_call < 180 then ⟨.discarded, [], s⟩
    else
      let r := retryLoop att 0 none max_retries
      ⟨r.1, r.2, { s with last_tt_call := now }⟩
  else if n = "burp" then
    if now - s.last_burp_call < 600 then ⟨.discarded, [], s⟩
    else
      let r := retryLoop att 0 none max_retries
      ⟨r.1, r.2, { s with last_burp_call := now }⟩
  else
    let r := retryLoop att 0 none max_retries
    ⟨r.1, r.2, s⟩

/-- Burp Δ-line relay decision (bot.py lines 563-571, identical logic at
427-437): given the `burp_cycle_processed` set, a token and its parsed
percentage change, skip when the change is non-negative and the token
was already processed; otherwise add the token to the set and relay.
Returns (relayed?, new set). -/
def burp_line_step {α : Type} [LinearOrderedRing α]
    (seen : List String) (token : String) (pct : α) :
    Bool × List String :=
  if 0 ≤ pct ∧ token ∈ seen then (false, seen)
  else (true, seen.insert token)

/-- Translation of `healthcheck.py`: exit code given whether the
heartbeat file exists and its age in seconds
(`datetime.utcnow() - utcfromtimestamp(mtime)`).  A missing file exits
1; otherwise exit 0 iff the age is under `timedelta(minutes=15)`. -/
def healthcheck {α : Type} [LinearOrderedRing α]
    (hbExists : Bool) (age : α) : Nat :=
  if hbExists then (if age < 15 * 60 then 0 else 1) else 1

/-- State read and written by one iteration of `tt_loop` (bot.py lines
669-728): the global monitoring flag, the bot's connection/ownership
status, the shared `last_trending_time`, the current interval/variation
draw, and the closure-local `tt_fails` counter.  `exited` models the
process having performed `os._exit(1)`: once set nothing runs. -/
structure TTLoopState (α : Type) where
  isMonitoringTT : Bool
  closed : Bool
  ttStarted : Bool
  isCommandBot : Bool
  last_trending_time : α
  current_interval : α
  current_variation : α
  tt_fails : Nat
  exited : Bool
deriving DecidableEq, Repr

/-- State read and written by one iteration of `burp_loop` (bot.py lines
745-804), mirroring `TTLoopState`; the gate threshold is
`BURP_COOLDOWN + current_variation`, so only the variation is stored. -/
structure BurpLoopState (α : Type) where
  isMonitoringBurp : Bool
  closed : Bool
  burpStarted : Bool
  isCommandBot : Bool
  last_burp_time : α
  current_variation : α
  burp_fails : Nat
  exited : Bool
deriving DecidableEq, Repr

/-- What the transport does during one gate-passed loop iteration: the
slash command is absent from the fetched list (`discord.utils.get`
returns `None`), `safe_command_call` discards the call and returns
`None`, the call returns a result, or a `NET_ERR` exception escapes the
`try` block (from `fetch_channel` or from `safe_command_call`
re-raising its last transport error). -/
inductive TriggerEvent where
  | cmdMissing
  | callDiscarded
  | callOk
  | netErr
deriving DecidableEq, Repr

/-- Observable effects of one loop iteration: whether the iteration got
past the gate to the command stage, whether `update_hb()` was called,
and whether roles were rotated. -/
structure CycleEffects where
  attempted : Bool
  hbWritten : Bool
  rotated : Bool
deriving DecidableEq, Repr

/-- No observable effect (an iteration that returned early). -/
def noEffects : CycleEffects := ⟨false, false, false⟩

/-- One iteration of `tt_loop` (bot.py lines 669-728).  `cmdDelay` is
the global `COMMAND_DELAY`; `now` is the `time.time()` reading;
`newInterval`/`newVariation` are the random draws used on success.  The
iteration returns early if the process exited, if monitoring is off,
the bot is closed, detached or no longer the command bot, if the
`COMMAND_DELAY` floor has not elapsed since `last_trending_time`, or if
the jittered threshold has not elapsed (unless `last_trending_time`
is `0`).  On success it records the fire time, re-rolls the jitter,
resets `tt_fails`, rotates roles and touches the heartbeat; on a
`NET_ERR` it increments `tt_fails` and hard-exits at `FAIL_THRESHOLD`. -/
def tt_cycle {α : Type} [LinearOrderedRing α] (cmdDelay : α)
    (s : TTLoopState α) (now : α) (ev : TriggerEvent)
    (newInterval newVariation : α) : TTLoopState α × CycleEffects :=
  if s.exited then (s, noEffects)
  else if ¬ s.isMonitoringTT ∨ s.closed ∨ ¬ s.ttStarted ∨ ¬ s.isCommandBot then
    (s, noEffects)
  else if now - s.last_trending_time < cmdDelay then (s, noEffects)
  else if s.last_trending_time = 0 ∨
      now - s.last_trending_time ≥ s.current_interval + s.current_variation then
    match ev with
    | .cmdMissing => (s, noEffects)
    | .callDiscarded => (s, ⟨true, false, false⟩)
    | .callOk =>
      ({ s with last_trending_time := now, current_interval := newInterval,
                current_variation := newVariation, tt_fails := 0 },
       ⟨true, true, true⟩)
    | .netErr =>
      let f := s.tt_fails + 1
      ({ s with tt_fails := f, exited := decide (FAIL_THRESHOLD ≤ f) },
       ⟨true, false, false⟩)
  else (s, noEffects)

/-- One iteration of `burp_loop` (bot.py lines 745-804), structured
exactly like `tt_cycle` with `BURP_COOLDOWN` as both the hard floor and
the base of the jittered threshold. -/
def burp_cycle {α : Type} [LinearOrderedRing α] (burpCooldown : α)
    (s : BurpLoopState α) (now : α) (ev : TriggerEvent)
    (newVariation : α) : BurpLoopState α × CycleEffects :=
  if s.exited then (s, noEffects)
  else if ¬ s.isMonitoringBurp ∨ s.closed ∨ ¬ s.burpStarted ∨ ¬ s.isCommandBot then
    (s, noEffects)
  else if now - s.last_burp_time < burpCooldown then (s, noEffects)
  else if s.last_burp_time = 0 ∨
      now - s.last_burp_time ≥ burpCooldown + s.current_variation then
    match ev with
    | .cmdMissing => (s, noEffects)
    | .callDiscarded => (s, ⟨true, false, false⟩)
    | .callOk =>
      ({ s with last_burp_time := now, current_variation := newVariation,
                burp_fails := 0 },
       ⟨true, true, true⟩)
    | .netErr =>
      let f := s.burp_fails + 1
      ({ s with burp_fails := f, exited := decide (FAIL_THRESHOLD ≤ f) },
       ⟨true, false, false⟩)
  else (s, noEffects)

/-- Local state installed by `_attach_tt_tasks` (bot.py lines 656-666):
`_tt_started = True` and a fresh `tt_fails = 0` in the loop closure;
the interval and variation are drawn anew. -/
def attach_tt_tasks {α : Type} (s : TTLoopState α)
    (newInterval newVariation : α) : TTLoopState α :=
  { s with ttStarted := true, tt_fails := 0,
           current_interval := newInterval,
           current_variation := newVariation }

/-- Local state installed by `_attach_burp_tasks` (bot.py lines
734-743). -/
def attach_burp_tasks {α : Type} (s : BurpLoopState α)
    (newVariation : α) : BurpLoopState α :=
  { s with burpStarted := true, burp_fails := 0,
           current_variation := newVariation }

/-- Inputs consumed by one `tt_loop` iteration: the clock reading, the
transport event, and the success-path random draws. -/
structure TTCycleIn (α : Type) where
  now : α
  ev : TriggerEvent
  newInterval : α
  newVariation : α
deriving DecidableEq, Repr

/-- Repeated `tt_loop` iterations over a list of cycle inputs,
returning the final state and how many iterations reached the command
stage. -/
def tt_run {α : Type} [LinearOrderedRing α] (cmdDelay : α)
    (s : TTLoopState α) : List (TTCycleIn α) → TTLoopState α × Nat
  | [] => (s, 0)
  | c :: cs =>
    let r := tt_cycle cmdDelay s c.now c.ev c.newInterval c.newVariation
    let rest := tt_run cmdDelay r.1 cs
    (rest.1, (if r.2.attempted then 1 else 0) + rest.2)

/-- Inputs consumed by one `burp_loop` iteration. -/
structure BurpCycleIn (α : Type) where
  now : α
  ev : TriggerEvent
  newVariation : α
deriving DecidableEq, Repr

/-- Repeated `burp_loop` iterations, as `tt_run`. -/
def burp_run {α : Type} [LinearOrderedRing α] (burpCooldown : α)
    (s : BurpLoopState α) : List (BurpCycleIn α) → BurpLoopState α × Nat
  | [] => (s, 0)
  | c :: cs =>
    let r := burp_cycle burpCooldown s c.now c.ev c.newVariation
    let rest := burp_run burpCooldown r.1 cs
    (rest.1, (if r.2.attempted then 1 else 0) + rest.2)

/-- Conditions under which one `tt_loop` iteration reaches the command
stage (all the early-return guards of bot.py lines 674-690 pass). -/
def TTGateOpen {α : Type} [LinearOrderedRing α] (cmdDelay : α)
    (s : TTLoopState α) (now : α) : Prop :=
  s.isMonitoringTT = true ∧ s.closed = false ∧ s.ttStarted = true ∧
    s.isCommandBot = true ∧ ¬ now - s.last_trending_time < cmdDelay ∧
    (s.last_trending_time = 0 ∨
      now - s.last_trending_time ≥ s.current_interval + s.current_variation)

instance {α : Type} [LinearOrderedRing α] (cmdDelay : α)
    (s : TTLoopState α) (now : α) : Decidable (TTGateOpen cmdDelay s now) := by
  unfold TTGateOpen; infer_instance

/-- Conditions under which one `burp_loop` iteration reaches the
command stage (bot.py lines 751-767). -/
def BurpGateOpen {α : Type} [LinearOrderedRing α] (burpCooldown : α)
    (s : BurpLoopState α) (now : α) : Prop :=
  s.isMonitoringBurp = true ∧ s.closed = false ∧ s.burpStarted = true ∧
    s.isCommandBot = true ∧ ¬ now - s.last_burp_time < burpCooldown ∧
    (s.last_burp_time = 0 ∨
      now - s.last_burp_time ≥ burpCooldown + s.current_variation)

instance {α : Type} [LinearOrderedRing α] (burpCooldown : α)
    (s : BurpLoopState α) (now : α) : Decidable (BurpGateOpen burpCooldown s now) := by
  unfold BurpGateOpen; infer_instance

/-- Candidate lists of bot.py lines 90-93. -/
def tt_command_candidates : List String := ["TRIBEIQ", "EYESINTHEHOOK"]

/-- Candidate lists of bot.py lines 90-93. -/
def tt_scanner_candidates : List String := ["HOODNARRATOR", "READYTOSPY"]

/-- Candidate lists of bot.py lines 90-93. -/
def burp_command_candidates : List String := ["TRIBEIQ", "EYESINTHEHOOK"]

/-- Candidate lists of bot.py lines 90-93. -/
def burp_scanner_candidates : List String := ["HOODNARRATOR", "READYTOSPY"]

/-- Global role/pool state of bot.py lines 84-96: the `active_bots` set
(kept as a duplicate-free list) and the four role variables, `None`
when unassigned. -/
structure RoleState where
  active_bots : List String
  tt_command_bot : Option String
  tt_scanner_bot : Option String
  burp_command_bot : Option String
  burp_scanner_bot : Option String
deriving DecidableEq, Repr

/-- Advance-to-next step shared by both rotation functions (bot.py
lines 199-210 and 253-264): if the current holder is in the availability
list, move to the next entry cyclically, else take the first entry.
Only called with a non-empty list. -/
def rotate_pick (cur : Option String) (avail : List String) : String :=
  match cur with
  | some c =>
    if c ∈ avail then avail.getD ((avail.indexOf c + 1) % avail.length) ""
    else avail.getD 0 ""
  | none => avail.getD 0 ""

/-- Translation of `rotate_tt_roles` (bot.py lines 183-235), restricted
to its effect on the role variables (the task-transfer half only
touches loop attachment, modelled in `SysState`).  Availability
excludes the current holder of the opposite role; if either list is
empty nothing changes. -/
def rotate_tt_roles (s : RoleState) : RoleState :=
  let availCmd := tt_command_candidates.filter fun b =>
    s.active_bots.contains b && !(s.tt_scanner_bot == some b)
  let availScan := tt_scanner_candidates.filter fun b =>
    s.active_bots.contains b && !(s.tt_command_bot == some b)
  if availCmd ≠ [] ∧ availScan ≠ [] then
    { s with tt_command_bot := some (rotate_pick s.tt_command_bot availCmd),
             tt_scanner_bot := some (rotate_pick s.tt_scanner_bot availScan) }
  else s

/-- Translation of `rotate_burp_roles` (bot.py lines 237-289), role
variables only. -/
def rotate_burp_roles (s : RoleState) : RoleState :=
  let availCmd := burp_command_candidates.filter fun b =>
    s.active_bots.contains b && !(s.burp_scanner_bot == some b)
  let availScan := burp_scanner_candidates.filter fun b =>
    s.active_bots.contains b && !(s.burp_command_bot == some b)
  if availCmd ≠ [] ∧ availScan ≠ [] then
    { s with burp_command_bot := some (rotate_pick s.burp_command_bot availCmd),
             burp_scanner_bot := some (rotate_pick s.burp_scanner_bot availScan) }
  else s

/-- First half of `initialize_roles_if_needed` (bot.py lines 295-304):
if either TT role is unset and at least two bots are active, assign
both TT roles to the first active candidates (if candidates exist for
both roles). -/
def initialize_tt_roles (s : RoleState) : RoleState :=
  if (s.tt_command_bot = none ∨ s.tt_scanner_bot = none) ∧
      2 ≤ s.active_bots.length then
    let availCmd := tt_command_candidates.filter fun b => s.active_bots.contains b
    let availScan := tt_scanner_candidates.filter fun b => s.active_bots.contains b
    if availCmd ≠ [] ∧ availScan ≠ [] then
      { s with tt_command_bot := some (availCmd.getD 0 ""),
               tt_scanner_bot := some (availScan.getD 0 "") }
    else s
  else s

/-- Second half of `initialize_roles_if_needed` (bot.py lines
306-315), the burp pipeline. -/
def initialize_burp_roles (s : RoleState) : RoleState :=
  if (s.burp_command_bot = none ∨ s.burp_scanner_bot = none) ∧
      2 ≤ s.active_bots.length then
    let availCmd := burp_command_candidates.filter fun b => s.active_bots.contains b
    let availScan := burp_scanner_candidates.filter fun b => s.active_bots.contains b
    if availCmd ≠ [] ∧ availScan ≠ [] then
      { s with burp_command_bot := some (availCmd.getD 0 ""),
                burp_scanner_bot := some (availScan.getD 0 "") }
    else s
  else s

/-- Translation of `initialize_roles_if_needed` (bot.py lines 291-315):
the TT block followed by the burp block. -/
def initialize_roles_if_needed (s : RoleState) : RoleState :=
  initialize_burp_roles (initialize_tt_roles s)

/-- System-level state for the runner scenario: the role state plus the
sets of labels whose `tt_loop` (resp. `burp_loop`) task is attached and
running (`_tt_started` / `_burp_started` with a live task loop). -/
structure SysState where
  roles : RoleState
  tt_started : List String
  burp_started : List String
deriving DecidableEq, Repr

/-- Translation of the `on_ready` handler together with the settled
effect of its `check_and_attach_tasks` task (bot.py lines 326-384):
add the label to `active_bots`, run `initialize_roles_if_needed`, and
attach the trigger loops to this bot exactly if it now holds the
corresponding command role.  Returns the new state and whether
`update_hb()` ran (it always does, line 330). -/
def on_ready_step (s : SysState) (label : String) : SysState × Bool :=
  let r := initialize_roles_if_needed
    { s.roles with active_bots := s.roles.active_bots.insert label }
  let ts := if r.tt_command_bot = some label ∧ label ∉ s.tt_started then
      s.tt_started.insert label else s.tt_started
  let bs := if r.burp_command_bot = some label ∧ label ∉ s.burp_started then
      s.burp_started.insert label else s.burp_started
  (⟨r, ts, bs⟩, true)

/-- Translation of the `finally` block of `runner` (bot.py lines
820-874), the code path taken when an identity's connection ends:
remove the label from `active_bots`, cancel its task loops, clear every
role it held, and if any role changed call
`initialize_roles_if_needed`. -/
def on_disconnect_step (s : SysState) (label : String) : SysState :=
  let active := s.roles.active_bots.erase label
  let ts := s.tt_started.erase label
  let bs := s.burp_started.erase label
  let r0 := { s.roles with active_bots := active }
  let changed := r0.tt_command_bot = some label ∨ r0.tt_scanner_bot = some label ∨
    r0.burp_command_bot = some label ∨ r0.burp_scanner_bot = some label
  let r1 := { r0 with
    tt_command_bot := if r0.tt_command_bot = some label then none
      else r0.tt_command_bot,
    tt_scanner_bot := if r0.tt_scanner_bot = some label then none
      else r0.tt_scanner_bot,
    burp_command_bot := if r0.burp_command_bot = some label then none
      else r0.burp_command_bot,
    burp_scanner_bot := if r0.burp_scanner_bot = some label then none
      else r0.burp_scanner_bot }
  let r2 := if changed then initialize_roles_if_needed r1 else r1
  ⟨r2, ts, bs⟩

/-- Connection-level events of the runner scenario. -/
inductive SysEvent where
  | ready (label : String)
  | disconnect (label : String)
deriving DecidableEq, Repr

/-- Folding connection events over the system state. -/
def sys_run (s : SysState) : List SysEvent → SysState
  | [] => s
  | .ready l :: es => sys_run (on_ready_step s l).1 es
  | .disconnect l :: es => sys_run (on_disconnect_step s l) es

/-- Empty start state: no bot connected, no role assigned, no loop
attached (bot.py lines 74-96). -/
def sys_init : SysState := ⟨⟨[], none, none, none, none⟩, [], []⟩

/-- Single pass of Python `str.split()` with no separator: `acc` holds
the characters of the token being read, in reverse. -/
def wsTokensAux : List Char → List Char → List String
  | [], acc => if acc = [] then [] else [⟨acc.reverse⟩]
  | c :: cs, acc =>
    if c.isWhitespace then
      if acc = [] then wsTokensAux cs []
      else ⟨acc.reverse⟩ :: wsTokensAux cs []
    else wsTokensAux cs (c :: acc)

/-- Python `str.split()` with no separator: split on whitespace runs,
dropping empty tokens. -/
def wsTokens (l : List Char) : List String := wsTokensAux l []

/-- Python `str.split()` on a string. -/
def pySplit (s : String) : List String := wsTokens s.data

/-- Python `str.startswith(pat)`. -/
def startsWithChars : List Char → List Char → Bool
  | [], _ => true
  | _ :: _, [] => false
  | p :: ps, c :: cs => p = c && startsWithChars ps cs

/-- Python `str.startswith(pat)` on strings. -/
def pyStartsWith (s pat : String) : Bool := startsWithChars pat.data s.data

/-- Python `int(tok)` on a whitespace-free token: an optional sign
followed by one or more ASCII digits; anything else raises
`ValueError` (modelled as `none`). -/
def pyInt (tok : String) : Option Int :=
  let digitsVal : List Char → Option Nat := fun cs =>
    if cs ≠ [] ∧ cs.all Char.isDigit then
      some (cs.foldl (fun a c => a * 10 + (c.toNat - 48)) 0)
    else none
  match tok.data with
  | '-' :: rest => (digitsVal rest).map fun n => -(n : Int)
  | '+' :: rest => (digitsVal rest).map fun n => (n : Int)
  | cs => (digitsVal cs).map fun n => (n : Int)

/-- Mutable configuration globals touched by the control commands
(bot.py lines 66-75): the monitoring flags and the numeric tunables. -/
structure CtrlState where
  isMonitoringTT : Bool
  isMonitoringBurp : Bool
  COMMAND_DELAY : Int
  COPY_DELAY_MIN : Int
  COPY_DELAY_MAX : Int
  BURP_COOLDOWN : Int
deriving DecidableEq, Repr

/-- Environment-derived identifiers the control handler compares
against (bot.py lines 54-58, 98-106, 480): the two control channel ids,
the allow-list of author ids, and the handling bot's own user id. -/
structure ControlCfg where
  tt_ch : Nat
  burp_ch : Nat
  allowed_authors : List Nat
  self_id : Nat
deriving DecidableEq, Repr

/-- Inbound message as seen by the control part of `on_message`. -/
structure InMsg where
  channel_id : Nat
  author_id : Nat
  content : String
deriving DecidableEq, Repr

/-- TT control block of `on_message` (bot.py lines 486-507) on the
lowercased, stripped text.  Returns `some (state, reply)` if one of the
branches returned (a `ValueError` while parsing `tt config` arguments
aborts the whole handler: no state change and no reply, modelled as
`some (s, none)`); `none` means execution falls through. -/
def tt_control (cfg : ControlCfg) (s : CtrlState) (m : InMsg)
    (txt : String) : Option (CtrlState × Option String) :=
  if m.channel_id = cfg.tt_ch ∧ m.author_id ∈ cfg.allowed_authors then
    if txt = "tt start" then some ({ s with isMonitoringTT := true }, some "TT on")
    else if txt = "tt stop" then
      some ({ s with isMonitoringTT := false }, some "TT off")
    else if pyStartsWith txt "tt config" then
      let toks := pySplit txt
      if 5 ≤ toks.length then
        match pyInt (toks.getD 2 ""), pyInt (toks.getD 3 ""), pyInt (toks.getD 4 "") with
        | some cd, some dmin, some dmax =>
          some ({ s with COMMAND_DELAY := cd, COPY_DELAY_MIN := dmin,
                         COPY_DELAY_MAX := dmax }, some "TT config updated")
        | _, _, _ => some (s, none)
      else some (s, none)
    else none
  else none

/-- Burp control block of `on_message` (bot.py lines 510-526), with the
same conventions as `tt_control`. -/
def burp_control (cfg : ControlCfg) (s : CtrlState) (m : InMsg)
    (txt : String) : Option (CtrlState × Option String) :=
  if m.channel_id = cfg.burp_ch ∧ m.author_id ∈ cfg.allowed_authors then
    if txt = "burp start" then
      some ({ s with isMonitoringBurp := true }, some "Burp on")
    else if txt = "burp stop" then
      some ({ s with isMonitoringBurp := false }, some "Burp off")
    else if pyStartsWith txt "burp config" then
      let toks := pySplit txt
      if 3 ≤ toks.length then
        match pyInt (toks.getD 2 "") with
        | some cd => some ({ s with BURP_COOLDOWN := cd }, some "Burp cooldown updated")
        | none => some (s, none)
      else some (s, none)
    else none
  else none

/-- Control-command part of the `on_message` handler (bot.py lines
476-526): ignore the bot's own messages, lowercase and strip the
content, then run the TT control block and, if it falls through, the
burp control block.  Messages handled by neither leave the
configuration unchanged and produce no control reply (the remaining
forwarding branches never write `CtrlState` and never reply to the
sender). -/
def handle_control (cfg : ControlCfg) (s : CtrlState) (m : InMsg) :
    CtrlState × Option String :=
  if m.author_id = cfg.self_id then (s, none)
  else
    let txt := pyLower (pyStrip m.content)
    match tt_control cfg s m txt with
    | some r => r
    | none =>
      match burp_control cfg s m txt with
      | some r => r
      | none => (s, none)

/-- Scanner-side dedup state of the trend pipeline (bot.py line 76):
the `processed_tt_embeds` message-id set and the `processed_tweets` URL
set, duplicate-free lists. -/
structure TTScanState where
  processed_tt_embeds : List Nat
  processed_tweets : List String
deriving DecidableEq, Repr

/-- Forwarding loop over the twitter URLs extracted from the embed
description lines (bot.py lines 597-609 and 459-471): skip URLs already
in `processed_tweets`, otherwise record then send.  Returns the new
state and the URLs sent, in order. -/
def forward_tweet_lines (s : TTScanState) : List String → TTScanState × List String
  | [] => (s, [])
  | u :: us =>
    if u ∈ s.processed_tweets then forward_tweet_lines s us
    else
      let r := forward_tweet_lines
        { s with processed_tweets := s.processed_tweets.insert u } us
      (r.1, u :: r.2)

/-- TT-embed branch shared by `on_message` (bot.py lines 584-610) and
`on_message_edit` (lines 448-473): drop the event if the embed id is in
`processed_tt_embeds`; otherwise add the id first and only then walk
the description lines.  `urls` is the list of twitter URLs the regex
extracts from the lines; `k` is how many of them the handler processes
before an exception aborts it (`k ≥ urls.length` when it completes),
which models failures after marking but before sending. -/
def tt_embed_step (s : TTScanState) (embedId : Nat) (urls : List String)
    (k : Nat) : TTScanState × List String :=
  if embedId ∈ s.processed_tt_embeds then (s, [])
  else
    forward_tweet_lines
      { s with processed_tt_embeds := s.processed_tt_embeds.insert embedId }
      (urls.take k)

/-- Statement that an optional role holder comes from a candidate
list. -/
def role_in (o : Option String) (cands : List String) : Prop :=
  ∀ c, o = some c → c ∈ cands

/-- Role variables only ever hold members of their candidate lists: true
of the initial `None` state and preserved by every mutation in bot.py
(`rotate_tt_roles`, `rotate_burp_roles`, `initialize_roles_if_needed`,
and the clearing in `runner`). -/
def RolesWellFormed (s : RoleState) : Prop :=
  role_in s.tt_command_bot tt_command_candidates ∧
    role_in s.tt_scanner_bot tt_scanner_candidates ∧
    role_in s.burp_command_bot burp_command_candidates ∧
    role_in s.burp_scanner_bot burp_scanner_candidates

/-! ## Helper lemmas -/

/-- An in-bounds `getD` returns a list member. -/
lemma list_getD_mem {l : List String} {i : Nat} (h : i < l.length)
    (d : String) : l.getD i d ∈ l := by
  rw [List.getD_eq_getElem l d h]
  exact List.getElem_mem h

/-- The advance-to-next step always returns a member of a non-empty
availability list. -/
lemma rotate_pick_mem (cur : Option String) (avail : List String)
    (h : avail ≠ []) : rotate_pick cur avail ∈ avail := by
  have hlen : 0 < avail.length := List.length_pos.mpr h
  unfold rotate_pick
  match cur with
  | none => exact list_getD_mem hlen ""
  | some c =>
    by_cases hc : c ∈ avail
    · simp only [hc, if_pos]
      exact list_getD_mem (Nat.mod_lt _ hlen) ""
    · simp only [hc, if_neg, ite_false]
      exact list_getD_mem hlen ""


/-! ## C4: dedup and sign policy of the scan-and-relay pipeline -/

/-- C4: in the burp relay logic, the first occurrence of a key with
non-negative Δ is relayed and marked seen, later non-negative
occurrences of a seen key are dropped, a negative-Δ occurrence is
always relayed (and marked), a key already seen stays seen, and after a
negative-Δ relay a subsequent non-negative occurrence of the same key
is dropped as already seen. -/
theorem burp_dedup_sign_policy {α : Type} [LinearOrderedRing α]
    (seen : List String) (token : String) (pct : α) :
    (token ∉ seen → (burp_line_step seen token pct).1 = true ∧
      token ∈ (burp_line_step seen token pct).2) ∧
    (0 ≤ pct → token ∈ seen → burp_line_step seen token pct = (false, seen)) ∧
    (pct < 0 → (burp_line_step seen token pct).1 = true ∧
      token ∈ (burp_line_step seen token pct).2) ∧
    (pct < 0 → ∀ pct2 : α, 0 ≤ pct2 →
      (burp_line_step (burp_line_step seen token pct).2 token pct2).1 = false) ∧
    (∀ tok2 (pct2 : α), token ∈ seen →
      token ∈ (burp_line_step seen tok2 pct2).2) := by
  refine ⟨?_, ?_, ?_, ?_, ?_⟩
  · intro hnot
    unfold burp_line_step
    rw [if_neg (fun hc => hnot hc.2)]
    exact ⟨rfl, List.mem_insert_self _ _⟩
  · intro hpct hmem
    unfold burp_line_step
    rw [if_pos ⟨hpct, hmem⟩]
  · intro hneg
    unfold burp_line_step
    rw [if_neg (fun hc => absurd hc.1 (not_le.mpr hneg))]
    exact ⟨rfl, List.mem_insert_self _ _⟩
  · intro hneg pct2 hpct2
    have hmem : token ∈ (burp_line_step seen token pct).2 := by
      unfold burp_line_step
      rw [if_neg (fun hc => absurd hc.1 (not_le.mpr hneg))]
      exact List.mem_insert_self _ _
    unfold burp_line_step
    rw [if_pos ⟨hpct2, hmem⟩]
  · intro tok2 pct2 hmem
    unfold burp_line_step
    by_cases hc : 0 ≤ pct2 ∧ tok2 ∈ seen
    · rw [if_pos hc]; exact hmem
    · rw [if_neg hc]; exact List.mem_insert_of_mem hmem

/-- Witness for C4 at a concrete input: key `"T1"`, negative Δ relayed
twice is fine; a non-negative occurrence afterwards is dropped. -/
theorem burp_dedup_sign_policy_witness :
    ((burp_line_step ([] : List String) "T1" (-3 : ℤ)).1 = true ∧
      "T1" ∈ (burp_line_step ([] : List String) "T1" (-3 : ℤ)).2) ∧
    (burp_line_step (burp_line_step ([] : List String) "T1" (-3 : ℤ)).2
      "T1" (0 : ℤ)).1 = false :=
  ⟨(burp_dedup_sign_policy [] "T1" (-3 : ℤ)).2.2.1 (by decide),
   (burp_dedup_sign_policy [] "T1" (-3 : ℤ)).2.2.2.1 (by decide) 0 (by decide)⟩

/-! ## C8: heartbeat writes and the external health check -/

/-- C8: `update_hb` runs exactly on the success path of a trigger cycle
(the iteration reached the command stage and the call returned a
result) and unconditionally at identity readiness, and `healthcheck.py`
exits 0 iff the heartbeat file exists and its age is under 15 minutes,
else 1. -/
theorem heartbeat_and_healthcheck {α : Type} [LinearOrderedRing α] :
    (∀ (hbExists : Bool) (age : α),
      (healthcheck hbExists age = 0 ↔ hbExists = true ∧ age < 15 * 60) ∧
      (healthcheck hbExists age = 0 ∨ healthcheck hbExists age = 1)) ∧
    (∀ (cmdDelay : α) s now ev newInterval newVariation,
      (tt_cycle cmdDelay s now ev newInterval newVariation).2.hbWritten = true ↔
        (tt_cycle cmdDelay s now ev newInterval newVariation).2.attempted = true ∧
          ev = .callOk) ∧
    (∀ (burpCooldown : α) s now ev newVariation,
      (burp_cycle burpCooldown s now ev newVariation).2.hbWritten = true ↔
        (burp_cycle burpCooldown s now ev newVariation).2.attempted = true ∧
          ev = .callOk) ∧
    (∀ s label, (on_ready_step s label).2 = true) := by
  refine ⟨?_, ?_, ?_, ?_⟩
  · intro hbExists age
    unfold healthcheck
    cases hbExists <;> by_cases h : age < 15 * 60 <;> simp [h]
  · intro cmdDelay s now ev newInterval newVariation
    unfold tt_cycle
    split
    · simp [noEffects]
    · split
      · simp [noEffects]
      · split
        · simp [noEffects]
        · split
          · cases ev <;> simp [noEffects]
          · simp [noEffects]
  · intro burpCooldown s now ev newVariation
    unfold burp_cycle
    split
    · simp [noEffects]
    · split
      · simp [noEffects]
      · split
        · simp [noEffects]
        · split
          · cases ev <;> simp [noEffects]
          · simp [noEffects]
  · intro s label
    rfl

/-! ## C3: the cooldown floor cannot be bypassed -/

/-- C3: once a fire has been recorded (`last_trending_time` /
`last_burp_time` set to a positive clock reading), an iteration at any
time less than the cooldown floor after it returns early with no
effect, for every transport event and every jitter draw. -/
theorem cooldown_floor_blocks_refire {α : Type} [LinearOrderedRing α] :
    (∀ (cmdDelay : α) (s : TTLoopState α) now ev newInterval newVariation,
      0 < s.last_trending_time →
      now - s.last_trending_time < cmdDelay →
      tt_cycle cmdDelay s now ev newInterval newVariation = (s, noEffects)) ∧
    (∀ (burpCooldown : α) (s : BurpLoopState α) now ev newVariation,
      0 < s.last_burp_time →
      now - s.last_burp_time < burpCooldown →
      burp_cycle burpCooldown s now ev newVariation = (s, noEffects)) := by
  constructor
  · intro cmdDelay s now ev newInterval newVariation _ hfloor
    unfold tt_cycle
    split
    · rfl
    · exact ite_self _
  · intro burpCooldown s now ev newVariation _ hfloor
    unfold burp_cycle
    split
    · rfl
    · exact ite_self _

/-- Witness for C3: a fire recorded at time 100, re-checked at time 120
with a 30-second floor, does not fire even with a tiny jitter
threshold. -/
theorem cooldown_floor_blocks_refire_witness :
    tt_cycle (30 : ℤ) ⟨true, false, true, true, 100, 1, 1, 0, false⟩ 120
        .callOk 300 1 = (⟨true, false, true, true, 100, 1, 1, 0, false⟩, noEffects) ∧
    burp_cycle (600 : ℤ) ⟨true, false, true, true, 100, 1, 0, false⟩ 300
        .callOk 5 = (⟨true, false, true, true, 100, 1, 0, false⟩, noEffects) :=
  ⟨cooldown_floor_blocks_refire.1 30 _ 120 .callOk 300 1 (by decide) (by decide),
   cooldown_floor_blocks_refire.2 600 _ 300 .callOk 5 (by decide) (by decide)⟩

/-! ## C10: process-wide per-command cooldown of `safe_command_call` -/

/-- C10: a `tt` call within 180 seconds of the previous `tt` call (resp.
`burp` within 600 seconds) is discarded — result `None`, no sleeps, no
state change, and the outcome does not depend on what the transport
would have answered; outside the window the shared per-command
timestamp is set to `now` before the operation runs, hence also when
every retry fails. -/
theorem command_call_cooldown_gate {α : Type} [LinearOrderedRing α]
    (now : α) (s : CommandCallState α) (max_retries : Nat)
    (att : Nat → Attempt) :
    (now - s.last_tt_call < 180 →
      safe_command_call "tt" now s max_retries att = ⟨.discarded, [], s⟩) ∧
    (now - s.last_burp_call < 600 →
      safe_command_call "burp" now s max_retries att = ⟨.discarded, [], s⟩) ∧
    (¬ now - s.last_tt_call < 180 →
      (safe_command_call "tt" now s max_retries att).state =
        { s with last_tt_call := now }) ∧
    (¬ now - s.last_burp_call < 600 →
      (safe_command_call "burp" now s max_retries att).state =
        { s with last_burp_call := now }) := by
  have htt : pyLower "tt" = "tt" := by decide
  have hburp : pyLower "burp" = "burp" := by decide
  refine ⟨?_, ?_, ?_, ?_⟩
  · intro h
    unfold safe_command_call
    rw [htt, if_pos rfl, if_pos h]
  · intro h
    unfold safe_command_call
    rw [hburp, if_neg (by decide), if_pos rfl, if_pos h]
  · intro h
    unfold safe_command_call
    rw [htt, if_pos rfl, if_neg h]
  · intro h
    unfold safe_command_call
    rw [hburp, if_neg (by decide), if_pos rfl, if_neg h]

/-- Witness for C10: a `tt` call 100 seconds after the previous one is
discarded with the state untouched; one 200 seconds after updates the
shared timestamp even though every attempt fails. -/
theorem command_call_cooldown_gate_witness :
    safe_command_call "tt" (1100 : ℤ) ⟨1000, 0⟩ 3 (fun _ => .transportErr 9)
        = ⟨.discarded, [], ⟨1000, 0⟩⟩ ∧
    (safe_command_call "tt" (1200 : ℤ) ⟨1000, 0⟩ 3
        (fun _ => .transportErr 9)).state = ⟨1200, 0⟩ :=
  ⟨(command_call_cooldown_gate (1100 : ℤ) ⟨1000, 0⟩ 3
      (fun _ => .transportErr 9)).1 (by decide),
   (command_call_cooldown_gate (1200 : ℤ) ⟨1000, 0⟩ 3
      (fun _ => .transportErr 9)).2.2.1 (by decide)⟩

/-! ## C6: retry policy of `safe_command_call` -/

/-- Exhaustion shape of the retry loop: if every remaining attempt is a
transport error the loop sleeps `min(2^(retries), 60)` after each and
finally re-raises the last error. -/
lemma retryLoop_all_transport (att : Nat → Attempt) (e : Nat → Nat) :
    ∀ (fuel i : Nat) (last : Option Nat), 0 < fuel →
      (∀ j, j < fuel → att (i + j) = .transportErr (e (i + j))) →
      retryLoop att i last fuel =
        (.raisedTransport (e (i + fuel - 1)),
          (List.range fuel).map fun j => min (2 ^ (i + j + 1)) 60) := by
  intro fuel
  induction fuel with
  | zero => intro i last h; omega
  | succ n ih =>
    intro i last _ hall
    have h0 : att i = .transportErr (e i) := by
      have := hall 0 (Nat.succ_pos n)
      simpa using this
    rcases Nat.eq_zero_or_pos n with hn | hn
    · subst hn
      simp only [retryLoop, h0]
      simp [List.range_succ]
    · have ih2 := ih (i + 1) (some (e i)) hn (fun j hj => by
        have := hall (j + 1) (by omega)
        simpa [Nat.add_assoc, Nat.add_comm 1 j] using this)
      simp only [retryLoop, h0, ih2, Prod.mk.injEq]
      constructor
      · congr 1
        congr 1
        omega
      · rw [List.range_succ_eq_map, List.map_cons, List.map_map]
        simp only [List.cons.injEq]
        constructor
        · trivial
        · apply List.map_congr_left
          intro j _
          have hj : i + 1 + j + 1 = i + (j + 1) + 1 := by omega
          simp [Function.comp_apply, hj]

/-- C6: on a transport-classified error, `safe_command_call` sleeps
`min(2^attempt, 60)` and retries, making at most `max_retries = 3`
attempts; when all attempts fail with transport errors the last one is
re-raised to the caller; a success stops the retrying; a non-transport
error propagates immediately from the first attempt with no retry and
no sleep. -/
theorem safe_command_call_retry_policy {α : Type} [LinearOrderedRing α]
    (now : α) (s : CommandCallState α) (att : Nat → Attempt) :
    (∀ e, ¬ now - s.last_tt_call < 180 → att 0 = .otherErr e →
      safe_command_call "tt" now s default_max_retries att =
        ⟨.raisedOther e, [], { s with last_tt_call := now }⟩) ∧
    (∀ e : Nat → Nat, ¬ now - s.last_tt_call < 180 →
      (∀ j, j < default_max_retries → att j = .transportErr (e j)) →
      safe_command_call "tt" now s default_max_retries att =
        ⟨.raisedTransport (e 2),
          [min (2 ^ 1) 60, min (2 ^ 2) 60, min (2 ^ 3) 60],
          { s with last_tt_call := now }⟩) ∧
    (∀ (e : Nat → Nat) m, 0 < m → (∀ j, j < m → att j = .transportErr (e j)) →
      retryLoop att 0 none m =
        (.raisedTransport (e (m - 1)),
          (List.range m).map fun j => min (2 ^ (j + 1)) 60)) ∧
    (∀ e v, att 0 = .transportErr e → att 1 = .ok v →
      retryLoop att 0 none default_max_retries =
        (.returned v, [min (2 ^ 1) 60])) := by
  have htt : pyLower "tt" = "tt" := by decide
  have hgen : ∀ (e : Nat → Nat) m, 0 < m →
      (∀ j, j < m → att j = .transportErr (e j)) →
      retryLoop att 0 none m =
        (.raisedTransport (e (m - 1)),
          (List.range m).map fun j => min (2 ^ (j + 1)) 60) := by
    intro e m hm hall
    have := retryLoop_all_transport att e m 0 none hm (fun j hj => by
      simpa using hall j hj)
    simpa using this
  refine ⟨?_, ?_, hgen, ?_⟩
  · intro e hcd h0
    unfold safe_command_call
    rw [htt, if_pos rfl, if_neg hcd]
    simp [retryLoop, default_max_retries, h0]
  · intro e hcd hall
    unfold safe_command_call
    rw [htt, if_pos rfl, if_neg hcd]
    rw [hgen e default_max_retries (by decide) hall]
    simp [default_max_retries, List.range_succ]
  · intro e v h0 h1
    simp [retryLoop, default_max_retries, h0, h1]

/-- Witness for C6: a non-transport error on the first attempt
propagates with no sleeps; three transport errors produce backoffs 2, 4,
8 and re-raise the last error. -/
theorem safe_command_call_retry_policy_witness :
    safe_command_call "tt" (1000 : ℤ) ⟨0, 0⟩ default_max_retries
        (fun _ => .otherErr 5) = ⟨.raisedOther 5, [], ⟨1000, 0⟩⟩ ∧
    safe_command_call "tt" (1000 : ℤ) ⟨0, 0⟩ default_max_retries
        (fun j => .transportErr j) =
      ⟨.raisedTransport 2, [2, 4, 8], ⟨1000, 0⟩⟩ :=
  ⟨(safe_command_call_retry_policy (1000 : ℤ) ⟨0, 0⟩
      (fun _ => .otherErr 5)).1 5 (by decide) rfl,
   by
    have := (safe_command_call_retry_policy (1000 : ℤ) ⟨0, 0⟩
      (fun j => .transportErr j)).2.1 (fun j => j) (by decide)
      (fun j _ => rfl)
    simpa using this⟩

/-! ## C2: role exclusivity -/

/-- Rotation preserves candidate-list membership of the TT roles. -/
lemma rotate_tt_roles_wellformed (s : RoleState) (h : RolesWellFormed s) :
    RolesWellFormed (rotate_tt_roles s) := by
  unfold rotate_tt_roles
  dsimp only
  split
  · next hav =>
    refine ⟨?_, ?_, h.2.2.1, h.2.2.2⟩
    · intro c hcd
      have hm := rotate_pick_mem s.tt_command_bot _ hav.1
      rw [← Option.some.inj hcd]
      exact (List.mem_filter.mp hm).1
    · intro c hcd
      have hm := rotate_pick_mem s.tt_scanner_bot _ hav.2
      rw [← Option.some.inj hcd]
      exact (List.mem_filter.mp hm).1
  · exact h

/-- Rotation preserves candidate-list membership of the burp roles. -/
lemma rotate_burp_roles_wellformed (s : RoleState) (h : RolesWellFormed s) :
    RolesWellFormed (rotate_burp_roles s) := by
  unfold rotate_burp_roles
  dsimp only
  split
  · next hav =>
    refine ⟨h.1, h.2.1, ?_, ?_⟩
    · intro c hcd
      have hm := rotate_pick_mem s.burp_command_bot _ hav.1
      rw [← Option.some.inj hcd]
      exact (List.mem_filter.mp hm).1
    · intro c hcd
      have hm := rotate_pick_mem s.burp_scanner_bot _ hav.2
      rw [← Option.some.inj hcd]
      exact (List.mem_filter.mp hm).1
  · exact h

/-- Initialisation of the TT roles preserves candidate-list
membership. -/
lemma initialize_tt_roles_wellformed (s : RoleState) (h : RolesWellFormed s) :
    RolesWellFormed (initialize_tt_roles s) := by
  unfold initialize_tt_roles
  dsimp only
  split
  · split
    · next hav =>
      refine ⟨?_, ?_, h.2.2.1, h.2.2.2⟩
      · intro c hcd
        have hm := list_getD_mem (List.length_pos.mpr hav.1) ""
        rw [← Option.some.inj hcd]
        exact (List.mem_filter.mp hm).1
      · intro c hcd
        have hm := list_getD_mem (List.length_pos.mpr hav.2) ""
        rw [← Option.some.inj hcd]
        exact (List.mem_filter.mp hm).1
    · exact h
  · exact h

/-- Initialisation of the burp roles preserves candidate-list
membership. -/
lemma initialize_burp_roles_wellformed (s : RoleState) (h : RolesWellFormed s) :
    RolesWellFormed (initialize_burp_roles s) := by
  unfold initialize_burp_roles
  dsimp only
  split
  · split
    · next hav =>
      refine ⟨h.1, h.2.1, ?_, ?_⟩
      · intro c hcd
        have hm := list_getD_mem (List.length_pos.mpr hav.1) ""
        rw [← Option.some.inj hcd]
        exact (List.mem_filter.mp hm).1
      · intro c hcd
        have hm := list_getD_mem (List.length_pos.mpr hav.2) ""
        rw [← Option.some.inj hcd]
        exact (List.mem_filter.mp hm).1
    · exact h
  · exact h

/-- A state whose roles come from their candidate lists has different
commander and scanner on both pipelines, because the command and
scanner candidate lists are disjoint. -/
lemma wellformed_roles_ne (s : RoleState) (h : RolesWellFormed s) :
    (∀ c k, s.tt_command_bot = some c → s.tt_scanner_bot = some k → c ≠ k) ∧
    (∀ c k, s.burp_command_bot = some c → s.burp_scanner_bot = some k → c ≠ k) := by
  constructor
  · intro c k hc hk heq
    subst heq
    have h1 := h.1 c hc
    have h2 := h.2.1 c hk
    simp [tt_command_candidates, tt_scanner_candidates] at h1 h2
    rcases h1 with h1 | h1 <;> rcases h2 with h2 | h2 <;>
      (subst h1; revert h2; decide)
  · intro c k hc hk heq
    subst heq
    have h1 := h.2.2.1 c hc
    have h2 := h.2.2.2 c hk
    simp [burp_command_candidates, burp_scanner_candidates] at h1 h2
    rcases h1 with h1 | h1 <;> rcases h2 with h2 | h2 <;>
      (subst h1; revert h2; decide)

/-- C2: starting from any state whose assigned roles come from their
candidate lists (true initially, when all roles are `None`, and
preserved by every role mutation), any `rotate_tt_roles`,
`rotate_burp_roles` or `initialize_roles_if_needed` call yields a state
where, whenever both the commander and the scanner of a pipeline are
assigned, they are different labels. -/
theorem roles_exclusive_after_role_assignment (s : RoleState)
    (h : RolesWellFormed s) :
    (RolesWellFormed (rotate_tt_roles s) ∧ RolesWellFormed (rotate_burp_roles s) ∧
      RolesWellFormed (initialize_roles_if_needed s)) ∧
    (∀ t : RoleState,
      t = rotate_tt_roles s ∨ t = rotate_burp_roles s ∨
        t = initialize_roles_if_needed s →
      (∀ c k, t.tt_command_bot = some c → t.tt_scanner_bot = some k → c ≠ k) ∧
      (∀ c k, t.burp_command_bot = some c → t.burp_scanner_bot = some k → c ≠ k)) ∧
    RolesWellFormed ⟨s.active_bots, none, none, none, none⟩ := by
  have hrt := rotate_tt_roles_wellformed s h
  have hrb := rotate_burp_roles_wellformed s h
  have hin : RolesWellFormed (initialize_roles_if_needed s) :=
    initialize_burp_roles_wellformed _ (initialize_tt_roles_wellformed s h)
  refine ⟨⟨hrt, hrb, hin⟩, ?_, ?_⟩
  · intro t ht
    rcases ht with ht | ht | ht <;> subst ht
    · exact wellformed_roles_ne _ hrt
    · exact wellformed_roles_ne _ hrb
    · exact wellformed_roles_ne _ hin
  · simp [RolesWellFormed, role_in]

/-- Witness for C2: from the all-connected unassigned state,
initialisation assigns different labels as TT commander and scanner,
and the exclusivity instance follows from the theorem. -/
theorem roles_exclusive_witness :
    (initialize_roles_if_needed
      ⟨["TRIBEIQ", "EYESINTHEHOOK", "HOODNARRATOR", "READYTOSPY"],
        none, none, none, none⟩).tt_command_bot = some "TRIBEIQ" ∧
    (initialize_roles_if_needed
      ⟨["TRIBEIQ", "EYESINTHEHOOK", "HOODNARRATOR", "READYTOSPY"],
        none, none, none, none⟩).tt_scanner_bot = some "HOODNARRATOR" ∧
    "TRIBEIQ" ≠ "HOODNARRATOR" :=
  ⟨by decide, by decide,
    ((roles_exclusive_after_role_assignment
        ⟨["TRIBEIQ", "EYESINTHEHOOK", "HOODNARRATOR", "READYTOSPY"],
          none, none, none, none⟩
        (by simp [RolesWellFormed, role_in])).2.1 _
      (Or.inr (Or.inr rfl))).1 "TRIBEIQ" "HOODNARRATOR" (by decide) (by decide)⟩

/-! ## C9: at-most-once processing of trend embeds -/

/-- The URL-forwarding loop never touches the embed-id set. -/
lemma forward_tweet_lines_embeds (l : List String) (s : TTScanState) :
    (forward_tweet_lines s l).1.processed_tt_embeds = s.processed_tt_embeds := by
  induction l generalizing s with
  | nil => rfl
  | cons u us ih =>
    unfold forward_tweet_lines
    split
    · exact ih s
    · exact ih _

/-- C9: a trend embed event whose message id is already in
`processed_tt_embeds` is dropped without forwarding or state change;
otherwise the id is recorded before any URL is forwarded — in
particular it is recorded even if the handler dies after `k = 0`
forwards — and any later event with the same id (from `on_message` or
`on_message_edit`, which share the set) forwards nothing and changes
nothing. -/
theorem tt_embed_processed_once (s : TTScanState) (embedId : Nat)
    (urls : List String) (k : Nat) :
    (embedId ∈ s.processed_tt_embeds → tt_embed_step s embedId urls k = (s, [])) ∧
    embedId ∈ (tt_embed_step s embedId urls k).1.processed_tt_embeds ∧
    ((tt_embed_step s embedId urls 0).2 = []) ∧
    (∀ urls2 k2,
      tt_embed_step (tt_embed_step s embedId urls k).1 embedId urls2 k2 =
        ((tt_embed_step s embedId urls k).1, [])) := by
  have hdrop : ∀ (t : TTScanState) (u2 : List String) (k2 : Nat),
      embedId ∈ t.processed_tt_embeds → tt_embed_step t embedId u2 k2 = (t, []) := by
    intro t u2 k2 h
    unfold tt_embed_step
    rw [if_pos h]
  have hmark : embedId ∈ (tt_embed_step s embedId urls k).1.processed_tt_embeds := by
    unfold tt_embed_step
    split
    · next h => exact h
    · rw [forward_tweet_lines_embeds]
      exact List.mem_insert_self _ _
  refine ⟨hdrop s urls k, hmark, ?_, fun urls2 k2 => hdrop _ urls2 k2 hmark⟩
  · unfold tt_embed_step
    split
    · rfl
    · rfl

/-- Witness for C9: an embed with a seen id forwards nothing; a fresh
id is marked even when the handler aborts before any send. -/
theorem tt_embed_processed_once_witness :
    tt_embed_step ⟨[5], []⟩ 5 ["u"] 1 = (⟨[5], []⟩, []) ∧
    5 ∈ (tt_embed_step ⟨[], []⟩ 5 ["u"] 0).1.processed_tt_embeds :=
  ⟨(tt_embed_processed_once ⟨[5], []⟩ 5 ["u"] 1).1 (by decide),
   (tt_embed_processed_once ⟨[], []⟩ 5 ["u"] 0).2.1⟩

/-! ## C1: consecutive-failure escalation of the trigger loops -/

/-- Once `os._exit(1)` has happened nothing runs in a `tt_loop`
iteration. -/
lemma tt_cycle_exited {α : Type} [LinearOrderedRing α] {d : α}
    {s : TTLoopState α} (hex : s.exited = true) (now : α)
    (ev : TriggerEvent) (nI nV : α) :
    tt_cycle d s now ev nI nV = (s, noEffects) := by
  unfold tt_cycle
  rw [if_pos hex]

/-- Once `os._exit(1)` has happened nothing runs in a `burp_loop`
iteration. -/
lemma burp_cycle_exited {α : Type} [LinearOrderedRing α] {c : α}
    {s : BurpLoopState α} (hex : s.exited = true) (now : α)
    (ev : TriggerEvent) (nV : α) :
    burp_cycle c s now ev nV = (s, noEffects) := by
  unfold burp_cycle
  rw [if_pos hex]

/-- Evaluation of a gate-passed `tt_loop` iteration on a `NET_ERR`. -/
lemma tt_cycle_netErr {α : Type} [LinearOrderedRing α] {d : α}
    {s : TTLoopState α} {now : α} (hex : s.exited = false)
    (hg : TTGateOpen d s now) (nI nV : α) :
    tt_cycle d s now .netErr nI nV =
      ({ s with tt_fails := s.tt_fails + 1,
                exited := decide (FAIL_THRESHOLD ≤ s.tt_fails + 1) },
       ⟨true, false, false⟩) := by
  obtain ⟨h1, h2, h3, h4, h5, h6⟩ := hg
  unfold tt_cycle
  rw [if_neg (by simp [hex]), if_neg (by simp [h1, h2, h3, h4]),
    if_neg h5, if_pos h6]

/-- Evaluation of a gate-passed `tt_loop` iteration on a successful
command execution. -/
lemma tt_cycle_callOk {α : Type} [LinearOrderedRing α] {d : α}
    {s : TTLoopState α} {now : α} (hex : s.exited = false)
    (hg : TTGateOpen d s now) (nI nV : α) :
    tt_cycle d s now .callOk nI nV =
      ({ s with last_trending_time := now, current_interval := nI,
                current_variation := nV, tt_fails := 0 },
       ⟨true, true, true⟩) := by
  obtain ⟨h1, h2, h3, h4, h5, h6⟩ := hg
  unfold tt_cycle
  rw [if_neg (by simp [hex]), if_neg (by simp [h1, h2, h3, h4]),
    if_neg h5, if_pos h6]

/-- Evaluation of a gate-passed `burp_loop` iteration on a `NET_ERR`. -/
lemma burp_cycle_netErr {α : Type} [LinearOrderedRing α] {c : α}
    {s : BurpLoopState α} {now : α} (hex : s.exited = false)
    (hg : BurpGateOpen c s now) (nV : α) :
    burp_cycle c s now .netErr nV =
      ({ s with burp_fails := s.burp_fails + 1,
                exited := decide (FAIL_THRESHOLD ≤ s.burp_fails + 1) },
       ⟨true, false, false⟩) := by
  obtain ⟨h1, h2, h3, h4, h5, h6⟩ := hg
  unfold burp_cycle
  rw [if_neg (by simp [hex]), if_neg (by simp [h1, h2, h3, h4]),
    if_neg h5, if_pos h6]

/-- Evaluation of a gate-passed `burp_loop` iteration on a successful
command execution. -/
lemma burp_cycle_callOk {α : Type} [LinearOrderedRing α] {c : α}
    {s : BurpLoopState α} {now : α} (hex : s.exited = false)
    (hg : BurpGateOpen c s now) (nV : α) :
    burp_cycle c s now .callOk nV =
      ({ s with last_burp_time := now, current_variation := nV,
                burp_fails := 0 },
       ⟨true, true, true⟩) := by
  obtain ⟨h1, h2, h3, h4, h5, h6⟩ := hg
  unfold burp_cycle
  rw [if_neg (by simp [hex]), if_neg (by simp [h1, h2, h3, h4]),
    if_neg h5, if_pos h6]

/-- One `tt_loop` iteration keeps the failure counter below the
threshold while the process is alive. -/
lemma tt_cycle_preserves_fail_inv {α : Type} [LinearOrderedRing α]
    (d : α) (s : TTLoopState α) (now : α) (ev : TriggerEvent) (nI nV : α)
    (h : s.exited = false → s.tt_fails < FAIL_THRESHOLD) :
    (tt_cycle d s now ev nI nV).1.exited = false →
      (tt_cycle d s now ev nI nV).1.tt_fails < FAIL_THRESHOLD := by
  unfold tt_cycle
  split
  · exact h
  · split
    · exact h
    · split
      · exact h
      · split
        · cases ev with
          | cmdMissing => exact h
          | callDiscarded => exact h
          | callOk =>
            intro _
            simp [FAIL_THRESHOLD]
          | netErr =>
            dsimp only
            intro hex
            have hnot : ¬ (FAIL_THRESHOLD ≤ s.tt_fails + 1) :=
              of_decide_eq_false hex
            omega
        · exact h

/-- One `burp_loop` iteration keeps the failure counter below the
threshold while the process is alive. -/
lemma burp_cycle_preserves_fail_inv {α : Type} [LinearOrderedRing α]
    (c : α) (s : BurpLoopState α) (now : α) (ev : TriggerEvent) (nV : α)
    (h : s.exited = false → s.burp_fails < FAIL_THRESHOLD) :
    (burp_cycle c s now ev nV).1.exited = false →
      (burp_cycle c s now ev nV).1.burp_fails < FAIL_THRESHOLD := by
  unfold burp_cycle
  split
  · exact h
  · split
    · exact h
    · split
      · exact h
      · split
        · cases ev with
          | cmdMissing => exact h
          | callDiscarded => exact h
          | callOk =>
            intro _
            simp [FAIL_THRESHOLD]
          | netErr =>
            dsimp only
            intro hex
            have hnot : ¬ (FAIL_THRESHOLD ≤ s.burp_fails + 1) :=
              of_decide_eq_false hex
            omega
        · exact h

/-- The failure-counter bound is a trace invariant of `tt_run`. -/
lemma tt_run_preserves_fail_inv {α : Type} [LinearOrderedRing α] (d : α) :
    ∀ (tr : List (TTCycleIn α)) (s : TTLoopState α),
      (s.exited = false → s.tt_fails < FAIL_THRESHOLD) →
      ((tt_run d s tr).1.exited = false →
        (tt_run d s tr).1.tt_fails < FAIL_THRESHOLD) := by
  intro tr
  induction tr with
  | nil => intro s h; exact h
  | cons c cs ih =>
    intro s h
    unfold tt_run
    dsimp only
    exact ih _ (tt_cycle_preserves_fail_inv d s c.now c.ev c.newInterval
      c.newVariation h)

/-- The failure-counter bound is a trace invariant of `burp_run`. -/
lemma burp_run_preserves_fail_inv {α : Type} [LinearOrderedRing α] (bc : α) :
    ∀ (tr : List (BurpCycleIn α)) (s : BurpLoopState α),
      (s.exited = false → s.burp_fails < FAIL_THRESHOLD) →
      ((burp_run bc s tr).1.exited = false →
        (burp_run bc s tr).1.burp_fails < FAIL_THRESHOLD) := by
  intro tr
  induction tr with
  | nil => intro s h; exact h
  | cons c cs ih =>
    intro s h
    unfold burp_run
    dsimp only
    exact ih _ (burp_cycle_preserves_fail_inv bc s c.now c.ev c.newVariation h)

/-- After the hard exit a `tt_loop` trace makes no further attempt. -/
lemma tt_run_exited {α : Type} [LinearOrderedRing α] (d : α)
    {s : TTLoopState α} (hex : s.exited = true) :
    ∀ tr : List (TTCycleIn α), tt_run d s tr = (s, 0) := by
  intro tr
  induction tr with
  | nil => rfl
  | cons c cs ih =>
    unfold tt_run
    rw [tt_cycle_exited hex]
    simp [noEffects, ih]

/-- After the hard exit a `burp_loop` trace makes no further attempt. -/
lemma burp_run_exited {α : Type} [LinearOrderedRing α] (bc : α)
    {s : BurpLoopState α} (hex : s.exited = true) :
    ∀ tr : List (BurpCycleIn α), burp_run bc s tr = (s, 0) := by
  intro tr
  induction tr with
  | nil => rfl
  | cons c cs ih =>
    unfold burp_run
    rw [burp_cycle_exited hex]
    simp [noEffects, ih]

/-- C1: for each trigger loop, the consecutive-failure counter starts at
0 when the loop is attached; a gate-passed iteration that fails with a
transport error increments it by 1 and hard-exits exactly when it
reaches `FAIL_THRESHOLD = 3`; a successful execution resets it to 0 and
never exits; while the process is alive the counter stays below 3
along every trace; after the exit no further iteration attempts a
trigger call; and in the concrete scenario of three consecutive
transport failures the exit fires on the third attempt and a fourth
attempt never happens. -/
theorem tt_burp_failure_escalation {α : Type} [LinearOrderedRing α] :
    (∀ (s : TTLoopState α) nI nV, (attach_tt_tasks s nI nV).tt_fails = 0) ∧
    (∀ (s : BurpLoopState α) nV, (attach_burp_tasks s nV).burp_fails = 0) ∧
    (∀ (d : α) (s : TTLoopState α) now nI nV,
      s.exited = false → TTGateOpen d s now →
      (tt_cycle d s now .netErr nI nV).1.tt_fails = s.tt_fails + 1 ∧
      ((tt_cycle d s now .netErr nI nV).1.exited = true ↔
        FAIL_THRESHOLD ≤ s.tt_fails + 1) ∧
      (s.tt_fails < FAIL_THRESHOLD →
        ((tt_cycle d s now .netErr nI nV).1.exited = true ↔
          s.tt_fails + 1 = FAIL_THRESHOLD))) ∧
    (∀ (bc : α) (s : BurpLoopState α) now nV,
      s.exited = false → BurpGateOpen bc s now →
      (burp_cycle bc s now .netErr nV).1.burp_fails = s.burp_fails + 1 ∧
      ((burp_cycle bc s now .netErr nV).1.exited = true ↔
        FAIL_THRESHOLD ≤ s.burp_fails + 1) ∧
      (s.burp_fails < FAIL_THRESHOLD →
        ((burp_cycle bc s now .netErr nV).1.exited = true ↔
          s.burp_fails + 1 = FAIL_THRESHOLD))) ∧
    (∀ (d : α) (s : TTLoopState α) now nI nV,
      s.exited = false → TTGateOpen d s now →
      (tt_cycle d s now .callOk nI nV).1.tt_fails = 0 ∧
      (tt_cycle d s now .callOk nI nV).1.exited = false) ∧
    (∀ (bc : α) (s : BurpLoopState α) now nV,
      s.exited = false → BurpGateOpen bc s now →
      (burp_cycle bc s now .callOk nV).1.burp_fails = 0 ∧
      (burp_cycle bc s now .callOk nV).1.exited = false) ∧
    (∀ (d : α) (tr : List (TTCycleIn α)) (s : TTLoopState α),
      (s.exited = false → s.tt_fails < FAIL_THRESHOLD) →
      ((tt_run d s tr).1.exited = false →
        (tt_run d s tr).1.tt_fails < FAIL_THRESHOLD)) ∧
    (∀ (bc : α) (tr : List (BurpCycleIn α)) (s : BurpLoopState α),
      (s.exited = false → s.burp_fails < FAIL_THRESHOLD) →
      ((burp_run bc s tr).1.exited = false →
        (burp_run bc s tr).1.burp_fails < FAIL_THRESHOLD)) ∧
    (∀ (d : α) (s : TTLoopState α), s.exited = true →
      ∀ tr, tt_run d s tr = (s, 0)) ∧
    (∀ (bc : α) (s : BurpLoopState α), s.exited = true →
      ∀ tr, burp_run bc s tr = (s, 0)) ∧
    ((tt_run (30 : ℤ) ⟨true, false, true, true, 0, 180, 1, 0, false⟩
        [⟨100, .netErr, 300, 1⟩, ⟨400, .netErr, 300, 1⟩,
         ⟨700, .netErr, 300, 1⟩]).1.exited = true ∧
      (tt_run (30 : ℤ) ⟨true, false, true, true, 0, 180, 1, 0, false⟩
        [⟨100, .netErr, 300, 1⟩, ⟨400, .netErr, 300, 1⟩,
         ⟨700, .netErr, 300, 1⟩]).2 = 3 ∧
      (tt_run (30 : ℤ) ⟨true, false, true, true, 0, 180, 1, 0, false⟩
        [⟨100, .netErr, 300, 1⟩, ⟨400, .netErr, 300, 1⟩,
         ⟨700, .netErr, 300, 1⟩, ⟨1000, .netErr, 300, 1⟩]).2 = 3 ∧
      (burp_run (600 : ℤ) ⟨true, false, true, true, 0, 5, 0, false⟩
        [⟨1000, .netErr, 5⟩, ⟨2000, .netErr, 5⟩, ⟨3000, .netErr, 5⟩]).1.exited
          = true ∧
      (burp_run (600 : ℤ) ⟨true, false, true, true, 0, 5, 0, false⟩
        [⟨1000, .netErr, 5⟩, ⟨2000, .netErr, 5⟩, ⟨3000, .netErr, 5⟩,
         ⟨4000, .netErr, 5⟩]).2 = 3) := by
  refine ⟨fun s nI nV => rfl, fun s nV => rfl, ?_, ?_, ?_, ?_,
    fun d tr s => tt_run_preserves_fail_inv d tr s,
    fun bc tr s => burp_run_preserves_fail_inv bc tr s,
    fun d s hex tr => tt_run_exited d hex tr,
    fun bc s hex tr => burp_run_exited bc hex tr,
    by decide⟩
  · intro d s now nI nV hex hg
    rw [tt_cycle_netErr hex hg]
    refine ⟨rfl, by simp, fun hlt => ?_⟩
    simp only [decide_eq_true_eq]
    omega
  · intro bc s now nV hex hg
    rw [burp_cycle_netErr hex hg]
    refine ⟨rfl, by simp, fun hlt => ?_⟩
    simp only [decide_eq_true_eq]
    omega
  · intro d s now nI nV hex hg
    rw [tt_cycle_callOk hex hg]
    exact ⟨rfl, hex⟩
  · intro bc s now nV hex hg
    rw [burp_cycle_callOk hex hg]
    exact ⟨rfl, hex⟩

/-- Witness for C1: a live state with 2 prior failures exits exactly on
the next transport failure; one with 1 prior failure does not; a
success resets the counter. -/
theorem tt_burp_failure_escalation_witness :
    (tt_cycle (30 : ℤ) ⟨true, false, true, true, 50, 180, 1, 2, false⟩ 300
        .netErr 300 1).1.exited = true ∧
    (tt_cycle (30 : ℤ) ⟨true, false, true, true, 50, 180, 1, 1, false⟩ 300
        .netErr 300 1).1.exited = false ∧
    (tt_cycle (30 : ℤ) ⟨true, false, true, true, 50, 180, 1, 2, false⟩ 300
        .callOk 300 1).1.tt_fails = 0 := by
  have h := tt_burp_failure_escalation (α := ℤ)
  refine ⟨?_, ?_, ?_⟩
  · exact ((h.2.2.1 30 ⟨true, false, true, true, 50, 180, 1, 2, false⟩ 300
      300 1 rfl (by decide)).2.2 (by decide)).mpr (by decide)
  · have hiff := (h.2.2.1 30 ⟨true, false, true, true, 50, 180, 1, 1, false⟩
      300 300 1 rfl (by decide)).2.1
    have : ¬ ((tt_cycle (30 : ℤ)
        ⟨true, false, true, true, 50, 180, 1, 1, false⟩ 300
        .netErr 300 1).1.exited = true) := by
      rw [hiff]; decide
    simpa using this
  · exact (h.2.2.2.2.1 30 ⟨true, false, true, true, 50, 180, 1, 2, false⟩ 300
      300 1 rfl (by decide)).1

/-! ## C5: disconnect handling -/

/-- TT initialisation never assigns a label that is not active, and
touches nothing else. -/
lemma initialize_tt_roles_avoids (t : RoleState) (l : String)
    (hl : l ∉ t.active_bots) :
    ((t.tt_command_bot ≠ some l →
        (initialize_tt_roles t).tt_command_bot ≠ some l) ∧
      (t.tt_scanner_bot ≠ some l →
        (initialize_tt_roles t).tt_scanner_bot ≠ some l)) ∧
    (initialize_tt_roles t).burp_command_bot = t.burp_command_bot ∧
    (initialize_tt_roles t).burp_scanner_bot = t.burp_scanner_bot ∧
    (initialize_tt_roles t).active_bots = t.active_bots := by
  unfold initialize_tt_roles
  dsimp only
  split
  · split
    · next hav =>
      refine ⟨⟨fun _ hc => ?_, fun _ hc => ?_⟩, rfl, rfl, rfl⟩
      · have hm := list_getD_mem (List.length_pos.mpr hav.1) ""
        rw [Option.some.inj hc] at hm
        exact hl (List.mem_of_elem_eq_true (List.mem_filter.mp hm).2)
      · have hm := list_getD_mem (List.length_pos.mpr hav.2) ""
        rw [Option.some.inj hc] at hm
        exact hl (List.mem_of_elem_eq_true (List.mem_filter.mp hm).2)
    · exact ⟨⟨fun h => h, fun h => h⟩, rfl, rfl, rfl⟩
  · exact ⟨⟨fun h => h, fun h => h⟩, rfl, rfl, rfl⟩

/-- Burp initialisation never assigns a label that is not active, and
touches nothing else. -/
lemma initialize_burp_roles_avoids (t : RoleState) (l : String)
    (hl : l ∉ t.active_bots) :
    ((t.burp_command_bot ≠ some l →
        (initialize_burp_roles t).burp_command_bot ≠ some l) ∧
      (t.burp_scanner_bot ≠ some l →
        (initialize_burp_roles t).burp_scanner_bot ≠ some l)) ∧
    (initialize_burp_roles t).tt_command_bot = t.tt_command_bot ∧
    (initialize_burp_roles t).tt_scanner_bot = t.tt_scanner_bot ∧
    (initialize_burp_roles t).active_bots = t.active_bots := by
  unfold initialize_burp_roles
  dsimp only
  split
  · split
    · next hav =>
      refine ⟨⟨fun _ hc => ?_, fun _ hc => ?_⟩, rfl, rfl, rfl⟩
      · have hm := list_getD_mem (List.length_pos.mpr hav.1) ""
        rw [Option.some.inj hc] at hm
        exact hl (List.mem_of_elem_eq_true (List.mem_filter.mp hm).2)
      · have hm := list_getD_mem (List.length_pos.mpr hav.2) ""
        rw [Option.some.inj hc] at hm
        exact hl (List.mem_of_elem_eq_true (List.mem_filter.mp hm).2)
    · exact ⟨⟨fun h => h, fun h => h⟩, rfl, rfl, rfl⟩
  · exact ⟨⟨fun h => h, fun h => h⟩, rfl, rfl, rfl⟩

/-- Full initialisation never assigns a label that is not active. -/
lemma initialize_roles_avoids (t : RoleState) (l : String)
    (hl : l ∉ t.active_bots)
    (h1 : t.tt_command_bot ≠ some l) (h2 : t.tt_scanner_bot ≠ some l)
    (h3 : t.burp_command_bot ≠ some l) (h4 : t.burp_scanner_bot ≠ some l) :
    (initialize_roles_if_needed t).tt_command_bot ≠ some l ∧
    (initialize_roles_if_needed t).tt_scanner_bot ≠ some l ∧
    (initialize_roles_if_needed t).burp_command_bot ≠ some l ∧
    (initialize_roles_if_needed t).burp_scanner_bot ≠ some l := by
  have htt := initialize_tt_roles_avoids t l hl
  have hl2 : l ∉ (initialize_tt_roles t).active_bots := by
    rw [htt.2.2.2]; exact hl
  have hb := initialize_burp_roles_avoids (initialize_tt_roles t) l hl2
  unfold initialize_roles_if_needed
  refine ⟨?_, ?_, ?_, ?_⟩
  · rw [hb.2.1]; exact htt.1.1 h1
  · rw [hb.2.2.1]; exact htt.1.2 h2
  · exact hb.1.1 (by rw [htt.2.1]; exact h3)
  · exact hb.1.2 (by rw [htt.2.2.1]; exact h4)

/-- Clearing a role holds: the cleared field is never the lost label. -/
lemma ite_none_ne_some (o : Option String) (l : String) :
    (if o = some l then none else o) ≠ some l := by
  split
  · exact fun h => nomatch h
  · next h => exact h

/-- C5 counterexample: in the concrete two-commander-candidate scenario
the disconnect handling does reassign the commander role to the second
candidate, but no bot has a running trigger loop afterwards, so the
trigger schedule does not resume on it: the claim's "resumes running on
B" part is false on the code. -/
theorem disconnect_no_resume_cex :
    (sys_run sys_init [.ready "HOODNARRATOR", .ready "TRIBEIQ",
      .ready "EYESINTHEHOOK"]).roles.tt_command_bot = some "TRIBEIQ" ∧
    "TRIBEIQ" ∈ (sys_run sys_init [.ready "HOODNARRATOR", .ready "TRIBEIQ",
      .ready "EYESINTHEHOOK"]).tt_started ∧
    "EYESINTHEHOOK" ∈ (sys_run sys_init [.ready "HOODNARRATOR",
      .ready "TRIBEIQ", .ready "EYESINTHEHOOK"]).roles.active_bots ∧
    (sys_run sys_init [.ready "HOODNARRATOR", .ready "TRIBEIQ",
      .ready "EYESINTHEHOOK", .disconnect "TRIBEIQ"]).roles.tt_command_bot
        = some "EYESINTHEHOOK" ∧
    "EYESINTHEHOOK" ∉ (sys_run sys_init [.ready "HOODNARRATOR",
      .ready "TRIBEIQ", .ready "EYESINTHEHOOK",
      .disconnect "TRIBEIQ"]).tt_started ∧
    (sys_run sys_init [.ready "HOODNARRATOR", .ready "TRIBEIQ",
      .ready "EYESINTHEHOOK", .disconnect "TRIBEIQ"]).tt_started = [] ∧
    (sys_run sys_init [.ready "HOODNARRATOR", .ready "TRIBEIQ",
      .ready "EYESINTHEHOOK", .disconnect "TRIBEIQ"]).burp_started = [] := by
  decide

/-- C5 (amended): the disconnect handling clears every role held by the
lost label (it never reassigns it, the active list being
duplicate-free), reassigns the commander role to the remaining
candidate in the concrete scenario, and cancels the lost bot's loops
while attaching a trigger loop to nobody — the schedule resumes only
when a later `on_ready` or start command attaches the loop to the new
commander. -/
theorem disconnect_reassigns_but_does_not_attach :
    (∀ (s : SysState) (l b : String),
      (b ∈ (on_disconnect_step s l).tt_started → b ∈ s.tt_started) ∧
      (b ∈ (on_disconnect_step s l).burp_started → b ∈ s.burp_started)) ∧
    (∀ (s : SysState) (l : String), s.roles.active_bots.Nodup →
      (on_disconnect_step s l).roles.tt_command_bot ≠ some l ∧
      (on_disconnect_step s l).roles.tt_scanner_bot ≠ some l ∧
      (on_disconnect_step s l).roles.burp_command_bot ≠ some l ∧
      (on_disconnect_step s l).roles.burp_scanner_bot ≠ some l) ∧
    ((sys_run sys_init [.ready "HOODNARRATOR", .ready "TRIBEIQ",
        .ready "EYESINTHEHOOK", .disconnect "TRIBEIQ"]).roles.tt_command_bot
          = some "EYESINTHEHOOK" ∧
      (sys_run sys_init [.ready "HOODNARRATOR", .ready "TRIBEIQ",
        .ready "EYESINTHEHOOK", .disconnect "TRIBEIQ"]).roles.burp_command_bot
          = some "EYESINTHEHOOK" ∧
      (sys_run sys_init [.ready "HOODNARRATOR", .ready "TRIBEIQ",
        .ready "EYESINTHEHOOK", .disconnect "TRIBEIQ"]).tt_started = [] ∧
      (sys_run sys_init [.ready "HOODNARRATOR", .ready "TRIBEIQ",
        .ready "EYESINTHEHOOK", .disconnect "TRIBEIQ"]).burp_started = []) := by
  refine ⟨?_, ?_, by decide⟩
  · intro s l b
    constructor
    · intro hb
      exact List.mem_of_mem_erase hb
    · intro hb
      exact List.mem_of_mem_erase hb
  · intro s l hnd
    unfold on_disconnect_step
    dsimp only
    have hl : l ∉ s.roles.active_bots.erase l := hnd.not_mem_erase
    split
    · exact initialize_roles_avoids _ l hl (ite_none_ne_some _ l)
        (ite_none_ne_some _ l) (ite_none_ne_some _ l) (ite_none_ne_some _ l)
    · exact ⟨ite_none_ne_some _ l, ite_none_ne_some _ l,
        ite_none_ne_some _ l, ite_none_ne_some _ l⟩

/-- Witness for C5 (amended): applying the theorem at the concrete
post-disconnect state shows the lost label holds no role and the
started sets only shrink. -/
theorem disconnect_reassigns_witness :
    ("TRIBEIQ" ∈ (on_disconnect_step (sys_run sys_init
        [.ready "HOODNARRATOR", .ready "TRIBEIQ", .ready "EYESINTHEHOOK"])
        "TRIBEIQ").tt_started → "TRIBEIQ" ∈ (sys_run sys_init
        [.ready "HOODNARRATOR", .ready "TRIBEIQ",
          .ready "EYESINTHEHOOK"]).tt_started) ∧
    (on_disconnect_step (sys_run sys_init [.ready "HOODNARRATOR",
        .ready "TRIBEIQ", .ready "EYESINTHEHOOK"])
        "TRIBEIQ").roles.tt_command_bot ≠ some "TRIBEIQ" :=
  ⟨(disconnect_reassigns_but_does_not_attach.1 _ "TRIBEIQ" "TRIBEIQ").1,
   (disconnect_reassigns_but_does_not_attach.2.1 _ "TRIBEIQ" (by decide)).1⟩

/-! ## C7: control-command replies -/

/-- C7 counterexample: an allowed sender's `tt config` with a
non-numeric argument in the TT control channel gets no reply at all
(the `int()` call raises and the handler dies silently), although it
indeed causes no state change — the claim's "rejected with a
user-visible reply" part is false on the code. -/
theorem invalid_config_silent_cex :
    handle_control ⟨1, 2, [7], 99⟩ ⟨true, true, 30, 5, 15, 600⟩
      ⟨1, 7, "tt config abc 5 10"⟩ =
        (⟨true, true, 30, 5, 15, 600⟩, none) := by
  decide

/-- C7 (amended): a control command from a sender not on the allow-list
(or from the bot itself) gets no reply and changes nothing, whatever
the content; an allowed sender's valid start/stop/config commands in
the right channel are applied and acknowledged with the success text;
an allowed sender's config command with invalid or missing numeric
arguments causes no state change and receives no reply. -/
theorem control_reply_policy (cfg : ControlCfg) (s : CtrlState) :
    (∀ m : InMsg, m.author_id ∉ cfg.allowed_authors →
      handle_control cfg s m = (s, none)) ∧
    (∀ a, a ∈ cfg.allowed_authors → a ≠ cfg.self_id →
      handle_control cfg s ⟨cfg.tt_ch, a, "tt start"⟩ =
        ({ s with isMonitoringTT := true }, some "TT on") ∧
      handle_control cfg s ⟨cfg.tt_ch, a, "tt stop"⟩ =
        ({ s with isMonitoringTT := false }, some "TT off") ∧
      handle_control cfg s ⟨cfg.tt_ch, a, "tt config 40 6 16"⟩ =
        ({ s with COMMAND_DELAY := 40, COPY_DELAY_MIN := 6,
                  COPY_DELAY_MAX := 16 }, some "TT config updated") ∧
      handle_control cfg s ⟨cfg.burp_ch, a, "burp start"⟩ =
        ({ s with isMonitoringBurp := true }, some "Burp on") ∧
      handle_control cfg s ⟨cfg.burp_ch, a, "burp stop"⟩ =
        ({ s with isMonitoringBurp := false }, some "Burp off") ∧
      handle_control cfg s ⟨cfg.burp_ch, a, "burp config 700"⟩ =
        ({ s with BURP_COOLDOWN := 700 }, some "Burp cooldown updated")) ∧
    (∀ a, a ∈ cfg.allowed_authors → a ≠ cfg.self_id →
      handle_control cfg s ⟨cfg.tt_ch, a, "tt config abc 6 16"⟩ = (s, none) ∧
      handle_control cfg s ⟨cfg.tt_ch, a, "tt config 40 6"⟩ = (s, none) ∧
      handle_control cfg s ⟨cfg.burp_ch, a, "burp config nope"⟩ = (s, none)) := by
  refine ⟨?_, ?_, ?_⟩
  · intro m hm
    unfold handle_control
    by_cases hself : m.author_id = cfg.self_id
    · rw [if_pos hself]
    · rw [if_neg hself]
      dsimp only
      unfold tt_control burp_control
      rw [if_neg (fun hc => hm hc.2), if_neg (fun hc => hm hc.2)]
  · intro a ha hself
    refine ⟨?_, ?_, ?_, ?_, ?_, ?_⟩
    · unfold handle_control
      rw [if_neg hself]
      dsimp only
      rw [show pyLower (pyStrip "tt start") = "tt start" from by decide]
      unfold tt_control
      rw [if_pos ⟨rfl, ha⟩, if_pos rfl]
    · unfold handle_control
      rw [if_neg hself]
      dsimp only
      rw [show pyLower (pyStrip "tt stop") = "tt stop" from by decide]
      unfold tt_control
      rw [if_pos ⟨rfl, ha⟩, if_neg (by decide), if_pos rfl]
    · unfold handle_control
      rw [if_neg hself]
      dsimp only
      rw [show pyLower (pyStrip "tt config 40 6 16") = "tt config 40 6 16"
        from by decide]
      unfold tt_control
      rw [if_pos ⟨rfl, ha⟩, if_neg (by decide), if_neg (by decide),
        if_pos (by decide)]
      dsimp only
      rw [if_pos (by decide)]
      rw [show pyInt ((pySplit "tt config 40 6 16").getD 2 "") = some 40
            from by decide,
          show pyInt ((pySplit "tt config 40 6 16").getD 3 "") = some 6
            from by decide,
          show pyInt ((pySplit "tt config 40 6 16").getD 4 "") = some 16
            from by decide]
    · have httnone :
          tt_control cfg s ⟨cfg.burp_ch, a, "burp start"⟩ "burp start" = none := by
        unfold tt_control
        split
        · rw [if_neg (by decide), if_neg (by decide), if_neg (by decide)]
        · rfl
      unfold handle_control
      rw [if_neg hself]
      dsimp only
      rw [show pyLower (pyStrip "burp start") = "burp start" from by decide]
      rw [httnone]
      unfold burp_control
      rw [if_pos ⟨rfl, ha⟩, if_pos rfl]
    · have httnone :
          tt_control cfg s ⟨cfg.burp_ch, a, "burp stop"⟩ "burp stop" = none := by
        unfold tt_control
        split
        · rw [if_neg (by decide), if_neg (by decide), if_neg (by decide)]
        · rfl
      unfold handle_control
      rw [if_neg hself]
      dsimp only
      rw [show pyLower (pyStrip "burp stop") = "burp stop" from by decide]
      rw [httnone]
      unfold burp_control
      rw [if_pos ⟨rfl, ha⟩, if_neg (by decide), if_pos rfl]
    · have httnone :
          tt_control cfg s ⟨cfg.burp_ch, a, "burp config 700"⟩
            "burp config 700" = none := by
        unfold tt_control
        split
        · rw [if_neg (by decide), if_neg (by decide), if_neg (by decide)]
        · rfl
      unfold handle_control
      rw [if_neg hself]
      dsimp only
      rw [show pyLower (pyStrip "burp config 700") = "burp config 700"
        from by decide]
      rw [httnone]
      unfold burp_control
      rw [if_pos ⟨rfl, ha⟩, if_neg (by decide), if_neg (by decide),
        if_pos (by decide)]
      dsimp only
      rw [if_pos (by decide)]
      rw [show pyInt ((pySplit "burp config 700").getD 2 "") = some 700
        from by decide]
  · intro a ha hself
    refine ⟨?_, ?_, ?_⟩
    · unfold handle_control
      rw [if_neg hself]
      dsimp only
      rw [show pyLower (pyStrip "tt config abc 6 16") = "tt config abc 6 16"
        from by decide]
      unfold tt_control
      rw [if_pos ⟨rfl, ha⟩, if_neg (by decide), if_neg (by decide),
        if_pos (by decide)]
      dsimp only
      rw [if_pos (by decide)]
      rw [show pyInt ((pySplit "tt config abc 6 16").getD 2 "") = none
        from by decide]
    · unfold handle_control
      rw [if_neg hself]
      dsimp only
      rw [show pyLower (pyStrip "tt config 40 6") = "tt config 40 6"
        from by decide]
      unfold tt_control
      rw [if_pos ⟨rfl, ha⟩, if_neg (by decide), if_neg (by decide),
        if_pos (by decide)]
      dsimp only
      rw [if_neg (by decide)]
    · have httnone :
          tt_control cfg s ⟨cfg.burp_ch, a, "burp config nope"⟩
            "burp config nope" = none := by
        unfold tt_control
        split
        · rw [if_neg (by decide), if_neg (by decide), if_neg (by decide)]
        · rfl
      unfold handle_control
      rw [if_neg hself]
      dsimp only
      rw [show pyLower (pyStrip "burp config nope") = "burp config nope"
        from by decide]
      rw [httnone]
      unfold burp_control
      rw [if_pos ⟨rfl, ha⟩, if_neg (by decide), if_neg (by decide),
        if_pos (by decide)]
      dsimp only
      rw [if_pos (by decide)]
      rw [show pyInt ((pySplit "burp config nope").getD 2 "") = none
        from by decide]

/-- Witness for C7 (amended): a concrete allowed sender gets `TT on`
for a valid command, a non-allowed sender gets silence, and a bad
numeric argument gets silence with no state change. -/
theorem control_reply_policy_witness :
    handle_control ⟨1, 2, [7], 99⟩ ⟨false, true, 30, 5, 15, 600⟩
        ⟨1, 7, "tt start"⟩ = (⟨true, true, 30, 5, 15, 600⟩, some "TT on") ∧
    handle_control ⟨1, 2, [7], 99⟩ ⟨true, true, 30, 5, 15, 600⟩
        ⟨1, 8, "tt start"⟩ = (⟨true, true, 30, 5, 15, 600⟩, none) ∧
    handle_control ⟨1, 2, [7], 99⟩ ⟨true, true, 30, 5, 15, 600⟩
        ⟨2, 7, "burp config nope"⟩ = (⟨true, true, 30, 5, 15, 600⟩, none) :=
  ⟨((control_reply_policy ⟨1, 2, [7], 99⟩ ⟨false, true, 30, 5, 15, 600⟩).2.1
      7 (by decide) (by decide)).1,
   (control_reply_policy ⟨1, 2, [7], 99⟩ ⟨true, true, 30, 5, 15, 600⟩).1
      ⟨1, 8, "tt start"⟩ (by decide),
   ((control_reply_policy ⟨1, 2, [7], 99⟩ ⟨true, true, 30, 5, 15, 600⟩).2.2
      7 (by decide) (by decide)).2.2⟩
